import Mathlib

/-!
Shallow embedding of `src/ion_processing.py` (repository `brine_valorization`).

The module defines `load_data_from_url` (with a nested helper `detect_file_type`)
and `lat_long_to_point`.  External collaborators (HTTP transport via `requests`,
the pandas / geopandas / rasterio parsing backends, `zipfile`, the filesystem)
are modelled as an explicit environment record of opaque capabilities, exactly at
the boundary where the source invokes them.  Python exceptions are modelled with
`Except`; the scratch extraction directory is explicit state.
-/

set_option maxHeartbeats 1000000

/-- The format tags returned by the nested helper `detect_file_type`
(`src/ion_processing.py` lines 30-38). -/
inductive FileType where
  | csv | txt | xls | xlsx | vector | raster | unknown
  deriving DecidableEq, Repr

/-- Boolean predicate: the character is not the POSIX path separator. -/
def notSep (c : Char) : Bool := c != '/'

/-- Boolean predicate: the character is not the extension separator dot. -/
def notDot (c : Char) : Bool := c != '.'

/-- The basename of a POSIX path, reversed: the maximal suffix of the path that
contains no `/` (read back to front).  This is the portion of the path that
`os.path.splitext` inspects: CPython's `genericpath._splitext` only accepts a
dot strictly after the last separator. -/
def revBasename (q : List Char) : List Char :=
  q.reverse.takeWhile notSep

/-- The extension component of `os.path.splitext` (posixpath), on a character
list.  CPython's `genericpath._splitext(p, '/', None, '.')` returns the suffix
of `p` starting at the last `.` provided (a) that dot lies after the last `/`
(i.e. inside the basename) and (b) at least one character of the basename
strictly before that dot is not itself a dot (leading dots of a basename, as in
the hidden file `.csv`, never start an extension).  Reading the basename back
to front: the reversed characters before the first dot are the reversed
extension tail, and the remaining reversed stem must contain a non-dot
character. -/
def splitextExt (q : List Char) : List Char :=
  match (revBasename q).dropWhile notDot with
  | [] => []
  | _ :: revStem =>
    if revStem.any notDot then '.' :: ((revBasename q).takeWhile notDot).reverse
    else []

/-- The extension-to-tag chain of `detect_file_type`
(`src/ion_processing.py` lines 32-38).  The source writes the first two tests
as separate `if` statements that both `return`, which is the same chain. -/
def extToTag (ext : String) : FileType :=
  if ext = ".csv" then FileType.csv
  else if ext = ".txt" then FileType.txt
  else if ext = ".xls" then FileType.xls
  else if ext = ".xlsx" then FileType.xlsx
  else if ext = ".shp" ∨ ext = ".geojson" ∨ ext = ".gpkg" ∨ ext = ".json" ∨ ext = ".kml" then
    FileType.vector
  else if ext = ".tif" ∨ ext = ".tiff" then FileType.raster
  else FileType.unknown

/-- `str.lower` on a path, modelled per character with `Char.toLower` (the
paths involved are ASCII, where the two agree). -/
def lowerChars (p : String) : List Char := p.data.map Char.toLower

/-- `detect_file_type` (`src/ion_processing.py` lines 30-38):
`ext = os.path.splitext(path.lower())[1]`, then the tag chain. -/
def detect_file_type (path : String) : FileType :=
  extToTag (String.mk (splitextExt (lowerChars path)))

example : detect_file_type "Major_Ions.csv" = FileType.csv := by rfl
example : detect_file_type "a/b/map.SHP" = FileType.vector := by rfl
example : detect_file_type "x.tiff" = FileType.raster := by rfl
example : detect_file_type "x.xlsx" = FileType.xlsx := by rfl
example : detect_file_type "no_extension" = FileType.unknown := by rfl
example : detect_file_type "dir.csv/file" = FileType.unknown := by rfl
example : detect_file_type ".csv" = FileType.unknown := by rfl

/-- The extraction rule exactly as the claim states it: the extension is the
suffix of the lower-cased path from its final `.` (the whole path, with no
basename or leading-dot restriction), empty if the path has no dot. -/
def naiveExt (q : List Char) : List Char :=
  match q.reverse.dropWhile notDot with
  | [] => []
  | _ :: _ => '.' :: (q.reverse.takeWhile notDot).reverse

/-- The format detector exactly as claim C3 states it: lower-case the path,
take the extension after the final `.`, then apply the documented mapping. -/
def naiveDetect (p : String) : FileType :=
  extToTag (String.mk (naiveExt (lowerChars p)))

/-- Helper: `takeWhile` walks through a prefix on which the predicate holds. -/
lemma takeWhile_append_all {p : Char → Bool} :
    ∀ (xs ys : List Char), (∀ c ∈ xs, p c = true) →
      (xs ++ ys).takeWhile p = xs ++ ys.takeWhile p := by
  intro xs
  induction xs with
  | nil => intro ys h; simp
  | cons a l ih =>
    intro ys h
    have ha : p a = true := h a (List.mem_cons_self a l)
    have h' : ∀ c ∈ l, p c = true := fun c hc => h c (List.mem_cons_of_mem a hc)
    simp [List.takeWhile_cons, ha, ih ys h']

/-- Helper: `dropWhile` skips over a prefix on which the predicate holds. -/
lemma dropWhile_append_all {p : Char → Bool} :
    ∀ (xs ys : List Char), (∀ c ∈ xs, p c = true) →
      (xs ++ ys).dropWhile p = ys.dropWhile p := by
  intro xs
  induction xs with
  | nil => intro ys h; simp
  | cons a l ih =>
    intro ys h
    have ha : p a = true := h a (List.mem_cons_self a l)
    have h' : ∀ c ∈ l, p c = true := fun c hc => h c (List.mem_cons_of_mem a hc)
    simp [List.dropWhile_cons, ha, ih ys h']

/-- Helper: the head of a `dropWhile` result falsifies the predicate. -/
lemma dropWhile_head_false {p : Char → Bool} :
    ∀ (l : List Char) (c : Char) (rest : List Char),
      l.dropWhile p = c :: rest → p c = false := by
  intro l
  induction l with
  | nil => intro c rest h; simp [List.dropWhile] at h
  | cons a l ih =>
    intro c rest h
    by_cases ha : p a
    · rw [List.dropWhile_cons_of_pos ha] at h
      exact ih c rest h
    · rw [List.dropWhile_cons_of_neg ha] at h
      cases h
      exact Bool.of_not_eq_true ha

/-- Characterization of the `os.path.splitext` extension: the extension
equals `'.' :: t` (for a dot-free nonempty tail `t`) exactly when the
reversed basename starts with the reversed extension and the remaining
stem contains a non-dot character. -/
lemma splitextExt_eq_ext_iff (q t : List Char)
    (hdot : ∀ c ∈ t, notDot c = true) :
    splitextExt q = '.' :: t ↔
      ((revBasename q).take (t.length + 1) = t.reverse ++ ['.'] ∧
        ((revBasename q).drop (t.length + 1)).any notDot = true) := by
  constructor
  · intro h
    cases hdrop : (revBasename q).dropWhile notDot with
    | nil =>
      rw [splitextExt, hdrop] at h
      exact absurd h (by simp)
    | cons c revStem =>
      rw [splitextExt, hdrop] at h
      dsimp only at h
      by_cases hany : revStem.any notDot = true
      · rw [if_pos hany] at h
        have h2 : ((revBasename q).takeWhile notDot).reverse = t := by
          simpa using h
        have htw : (revBasename q).takeWhile notDot = t.reverse := by
          rw [← h2, List.reverse_reverse]
        have hc : notDot c = false := dropWhile_head_false _ _ _ hdrop
        have hc' : c = '.' := by
          simpa [notDot, bne_eq_false_iff_eq] using hc
        have hrb : revBasename q = (t.reverse ++ ['.']) ++ revStem := by
          conv_lhs => rw [← List.takeWhile_append_dropWhile (p := notDot) (l := revBasename q)]
          rw [htw, hdrop, hc', List.append_assoc, List.singleton_append]
        have hlen : (t.reverse ++ ['.']).length = t.length + 1 := by simp
        constructor
        · rw [hrb, List.take_left' hlen]
        · rw [hrb, List.drop_left' hlen]
          exact hany
      · rw [if_neg hany] at h
        exact absurd h (by simp)
  · rintro ⟨htake, hany⟩
    have hrb : revBasename q = (t.reverse ++ ['.']) ++ (revBasename q).drop (t.length + 1) := by
      conv_lhs => rw [← List.take_append_drop (t.length + 1) (revBasename q)]
      rw [htake]
    have hall : ∀ c ∈ t.reverse, notDot c = true := fun c hc => hdot c (List.mem_reverse.mp hc)
    have hdotfalse : notDot '.' = false := by simp [notDot]
    have htw : (revBasename q).takeWhile notDot = t.reverse := by
      conv_lhs => rw [hrb]
      rw [List.append_assoc, List.singleton_append, takeWhile_append_all _ _ hall,
        List.takeWhile_cons_of_neg (by simp [hdotfalse])]
      simp
    have hdw : (revBasename q).dropWhile notDot =
        '.' :: (revBasename q).drop (t.length + 1) := by
      conv_lhs => rw [hrb]
      rw [List.append_assoc, List.singleton_append, dropWhile_append_all _ _ hall,
        List.dropWhile_cons_of_neg (by simp [hdotfalse])]
    rw [splitextExt, hdw]
    simp only [hany, if_true, htw, List.reverse_reverse]

/-- Independent (suffix-matching) formulation of the extension test used by
the amended claim: the lower-cased path carries extension `e` when the
reversed basename starts with the reversed extension and the rest of the
basename (the stem) contains a character other than `.`. -/
def extMatches (q : List Char) (e : List Char) : Bool :=
  ((revBasename q).take e.length == e.reverse) &&
    ((revBasename q).drop e.length).any notDot

/-- The format detector as the amended claim C3 states it: lower-case the
path; an extension is the suffix of the basename from its final dot, which
counts only when at least one non-dot character of the basename precedes it
(so a leading-dot name such as `.csv` has no extension); then the documented
mapping, `unknown` otherwise; total, never raising. -/
def detectAmended (p : String) : FileType :=
  if extMatches (lowerChars p) ['.', 'c', 's', 'v'] then FileType.csv
  else if extMatches (lowerChars p) ['.', 't', 'x', 't'] then FileType.txt
  else if extMatches (lowerChars p) ['.', 'x', 'l', 's'] then FileType.xls
  else if extMatches (lowerChars p) ['.', 'x', 'l', 's', 'x'] then FileType.xlsx
  else if extMatches (lowerChars p) ['.', 's', 'h', 'p'] ||
      (extMatches (lowerChars p) ['.', 'g', 'e', 'o', 'j', 's', 'o', 'n'] ||
        (extMatches (lowerChars p) ['.', 'g', 'p', 'k', 'g'] ||
          (extMatches (lowerChars p) ['.', 'j', 's', 'o', 'n'] ||
            extMatches (lowerChars p) ['.', 'k', 'm', 'l']))) then FileType.vector
  else if extMatches (lowerChars p) ['.', 't', 'i', 'f'] ||
      extMatches (lowerChars p) ['.', 't', 'i', 'f', 'f'] then FileType.raster
  else FileType.unknown

/-- Bridge: the suffix-matching extension test agrees with the
`os.path.splitext` computation, for a dot-free extension tail. -/
lemma extMatches_iff (q t : List Char) (hdot : ∀ c ∈ t, notDot c = true) :
    extMatches q ('.' :: t) = true ↔ String.mk (splitextExt q) = String.mk ('.' :: t) := by
  have base := splitextExt_eq_ext_iff q t hdot
  constructor
  · intro h
    have h' : (revBasename q).take (t.length + 1) = t.reverse ++ ['.'] ∧
        ((revBasename q).drop (t.length + 1)).any notDot = true := by
      simpa [extMatches, Bool.and_eq_true, List.reverse_cons] using h
    exact congrArg String.mk (base.mpr h')
  · intro h
    have h' : splitextExt q = '.' :: t := congrArg String.data h
    have h2 := base.mp h'
    simp [extMatches, Bool.and_eq_true, List.reverse_cons, h2.1, h2.2]

lemma extMatches_csv (q : List Char) :
    extMatches q ['.', 'c', 's', 'v'] = true ↔ String.mk (splitextExt q) = ".csv" :=
  extMatches_iff q ['c', 's', 'v'] (by decide)

lemma extMatches_txt (q : List Char) :
    extMatches q ['.', 't', 'x', 't'] = true ↔ String.mk (splitextExt q) = ".txt" :=
  extMatches_iff q ['t', 'x', 't'] (by decide)

lemma extMatches_xls (q : List Char) :
    extMatches q ['.', 'x', 'l', 's'] = true ↔ String.mk (splitextExt q) = ".xls" :=
  extMatches_iff q ['x', 'l', 's'] (by decide)

lemma extMatches_xlsx (q : List Char) :
    extMatches q ['.', 'x', 'l', 's', 'x'] = true ↔ String.mk (splitextExt q) = ".xlsx" :=
  extMatches_iff q ['x', 'l', 's', 'x'] (by decide)

lemma extMatches_shp (q : List Char) :
    extMatches q ['.', 's', 'h', 'p'] = true ↔ String.mk (splitextExt q) = ".shp" :=
  extMatches_iff q ['s', 'h', 'p'] (by decide)

lemma extMatches_geojson (q : List Char) :
    extMatches q ['.', 'g', 'e', 'o', 'j', 's', 'o', 'n'] = true ↔
      String.mk (splitextExt q) = ".geojson" :=
  extMatches_iff q ['g', 'e', 'o', 'j', 's', 'o', 'n'] (by decide)

lemma extMatches_gpkg (q : List Char) :
    extMatches q ['.', 'g', 'p', 'k', 'g'] = true ↔ String.mk (splitextExt q) = ".gpkg" :=
  extMatches_iff q ['g', 'p', 'k', 'g'] (by decide)

lemma extMatches_json (q : List Char) :
    extMatches q ['.', 'j', 's', 'o', 'n'] = true ↔ String.mk (splitextExt q) = ".json" :=
  extMatches_iff q ['j', 's', 'o', 'n'] (by decide)

lemma extMatches_kml (q : List Char) :
    extMatches q ['.', 'k', 'm', 'l'] = true ↔ String.mk (splitextExt q) = ".kml" :=
  extMatches_iff q ['k', 'm', 'l'] (by decide)

lemma extMatches_tif (q : List Char) :
    extMatches q ['.', 't', 'i', 'f'] = true ↔ String.mk (splitextExt q) = ".tif" :=
  extMatches_iff q ['t', 'i', 'f'] (by decide)

lemma extMatches_tiff (q : List Char) :
    extMatches q ['.', 't', 'i', 'f', 'f'] = true ↔ String.mk (splitextExt q) = ".tiff" :=
  extMatches_iff q ['t', 'i', 'f', 'f'] (by decide)

/-- C3 counterexample: the claim's extraction rule ("the extension after the
final `.` of the lower-cased path") classifies the path `.csv` as csv, but
`detect_file_type` (via `os.path.splitext`, which gives a leading-dot basename
no extension) returns unknown. -/
theorem C3_counterexample :
    naiveDetect ".csv" = FileType.csv ∧ detect_file_type ".csv" = FileType.unknown :=
  ⟨rfl, rfl⟩

/-- C3 (amended): for every path string, the detector lower-cases the path and
takes the extension after the final `.` of the path's basename, provided at
least one non-dot character of the basename precedes that dot (so names
consisting only of leading dots plus a suffix, such as `.csv`, have no
extension); it returns csv for `.csv`, txt for `.txt`, xls for `.xls`, xlsx
for `.xlsx`, vector for `.shp`/`.geojson`/`.gpkg`/`.json`/`.kml`, raster for
`.tif`/`.tiff`, and unknown for every other or missing extension; being a
total function, it never raises. -/
theorem C3_detect_format (p : String) : detect_file_type p = detectAmended p := by
  unfold detect_file_type detectAmended extToTag
  simp only [extMatches_csv, extMatches_txt, extMatches_xls, extMatches_xlsx,
    extMatches_shp, extMatches_geojson, extMatches_gpkg, extMatches_json,
    extMatches_kml, extMatches_tif, extMatches_tiff, Bool.or_eq_true]

/-! ## The loader `load_data_from_url` (`src/ion_processing.py` lines 12-95) -/

/-- A coordinate reference system identifier (e.g. `EPSG:4326`). -/
abbrev CRS := String

/-- The free-form `**kwargs` options mapping, forwarded verbatim to the
parsing backends; opaque to the core, modelled by an identifier. -/
abbrev Kwargs := Nat

/-- An opaque byte payload (response content, archive member stream),
modelled by an identifier. -/
abbrev Bytes := Nat

/-- Python exceptions that the embedded code can raise or propagate. -/
inductive PyErr where
  /-- `requests.exceptions.HTTPError` from `response.raise_for_status()`;
  the `TransportError` of the spec, carrying status code and URL. -/
  | httpError (status : Nat) (url : String)
  /-- `ValueError(msg)`. -/
  | valueError (msg : String)
  /-- `NotImplementedError(msg)`. -/
  | notImplementedError (msg : String)
  /-- `NameError`: an undefined global name was evaluated. -/
  | nameError (name : String)
  /-- `UnboundLocalError`: a local variable was read before assignment. -/
  | unboundLocalError (name : String)
  /-- `KeyError(msg)`. -/
  | keyError (msg : String)
  /-- An arbitrary error raised by an opaque backend. -/
  | backendError (code : Nat)
  deriving DecidableEq, Repr

/-- What a parsing backend is given to read from: an in-memory buffer
(`io.BytesIO(response.content)`), an open zip member stream
(`zip_file.open(filepath)`), or a filesystem path. -/
inductive Src where
  | buffer (content : Bytes)
  | member (stream : Bytes)
  | path (p : String)
  deriving DecidableEq, Repr

/-- The loaded structure returned by the loader: a tabular DataFrame, a
GeoDataFrame carrying its CRS attribute, or a rasterio dataset handle.
`D` is the opaque content produced by the backends. -/
inductive Loaded (D : Type) where
  | frame (d : D)
  | geoFrame (d : D) (crs : CRS)
  | raster (d : D)
  deriving DecidableEq, Repr

/-- The filesystem state the loader can affect: the scratch extraction
directory `extracted_data` (`none` = does not exist, `some files` = exists
and holds those member files). -/
structure FsState where
  extracted : Option (List String)
  deriving DecidableEq, Repr

/-- The environment of external capabilities the loader invokes, at exactly
the boundary the source calls them, plus the module's global namespace entry
for `saws_crs`.  Backends are opaque: each is an arbitrary function that may
return a value or raise. -/
structure Env (D : Type) where
  /-- `requests.get(url, headers=...).status_code`. -/
  get_status : String → Nat
  /-- `requests.get(url, headers=...).content` (opaque payload). -/
  get_content : String → Bytes
  /-- `pd.read_csv(src, low_memory=False, **kwargs)`. -/
  read_csv : Src → Kwargs → Except PyErr D
  /-- `pd.read_excel(src, engine=e, **kwargs)` (engine `xlrd` or `openpyxl`). -/
  read_excel : Src → String → Kwargs → Except PyErr D
  /-- `gpd.read_file(src, **kwargs)`: opaque content plus the CRS the file
  declares. -/
  gpd_read_file : Src → Kwargs → Except PyErr (D × CRS)
  /-- `rasterio.open(src, **kwargs)`. -/
  rasterio_open : Src → Kwargs → Except PyErr D
  /-- The content transformation performed by `GeoDataFrame.to_crs`
  (from-CRS, to-CRS); the library contract is that the result's CRS
  attribute is the target, which `to_crs` below makes explicit. -/
  reproject : D → CRS → CRS → D
  /-- `zipfile.ZipFile(io.BytesIO(content))`: fails on an invalid archive. -/
  zip_open_archive : Bytes → Except PyErr Unit
  /-- The archive's member names (what `extractall` writes to disk). -/
  zip_names : Bytes → List String
  /-- `zip_file.open(filepath)`: the member's stream, or `KeyError`. -/
  zip_open_member : Bytes → String → Except PyErr Bytes
  /-- Whether `zip_file.extractall('extracted_data')` succeeds. -/
  extractall : Bytes → Except PyErr Unit
  /-- The process working directory, used by `os.path.abspath`. -/
  cwd : String
  /-- The module-global binding of the name `saws_crs`.  The module
  `src/ion_processing.py` itself never assigns this name, so executing it as
  written corresponds to `saws_crs = none`; the spec (§3, §9) instead models
  the target CRS as a constant injected at startup, `saws_crs = some tgt`. -/
  saws_crs : Option CRS

/-- Evaluating the global name `saws_crs`: `NameError` when unbound. -/
def getSawsCrs {D : Type} (env : Env D) : Except PyErr CRS :=
  match env.saws_crs with
  | some c => Except.ok c
  | none => Except.error (PyErr.nameError "saws_crs")

/-- `GeoDataFrame.to_crs(tgt)` on a frame with content and CRS attribute:
transforms the content and sets the CRS attribute to the target. -/
def to_crs {D : Type} (env : Env D) (g : D × CRS) (tgt : CRS) : D × CRS :=
  (env.reproject g.1 g.2 tgt, tgt)

/-- `response.raise_for_status()` (requests): raises `HTTPError` exactly for
client-error and server-error status codes, 400-599; it is a no-op for any
other status (1xx, 2xx, 3xx). -/
def raise_for_status (status : Nat) (url : String) : Except PyErr Unit :=
  if 400 ≤ status ∧ status < 600 then Except.error (PyErr.httpError status url)
  else Except.ok ()

/-- The non-zipped dispatch (`src/ion_processing.py` lines 44-62): detect the
format from the URL, parse the response buffer. -/
def loadNotZipped {D : Type} (env : Env D) (url : String) (content : Bytes)
    (k : Kwargs) : Except PyErr (Loaded D) :=
  match detect_file_type url with
  | FileType.csv => (env.read_csv (Src.buffer content) k).map Loaded.frame
  | FileType.txt => (env.read_csv (Src.buffer content) k).map Loaded.frame
  | FileType.xls => (env.read_excel (Src.buffer content) "xlrd" k).map Loaded.frame
  | FileType.xlsx => (env.read_excel (Src.buffer content) "openpyxl" k).map Loaded.frame
  | FileType.vector => do
      let g ← env.gpd_read_file (Src.buffer content) k
      let tgt ← getSawsCrs env
      let g2 := to_crs env g tgt
      pure (Loaded.geoFrame g2.1 g2.2)
  | FileType.raster => (env.rasterio_open (Src.buffer content) k).map Loaded.raster
  | FileType.unknown =>
      match env.read_csv (Src.buffer content) k with
      | Except.ok d => Except.ok (Loaded.frame d)
      | Except.error _ =>
          Except.error (PyErr.valueError
            "Could not download data from this URL. Please check URL and try again.")

/-- `os.path.join('extracted_data', filepath)` (posixpath: an absolute second
component replaces the first). -/
def ospath_join (a b : String) : String :=
  if b.data.head? = some '/' then b else a ++ "/" ++ b

/-- `os.path.abspath` relative to the working directory (`normpath`
collapsing is omitted: no claim inspects the path's spelling). -/
def ospath_abspath (cwd p : String) : String :=
  if p.data.head? = some '/' then p else cwd ++ "/" ++ p

/-- `full_path = os.path.abspath(os.path.join('extracted_data', filepath))`
(`src/ion_processing.py` line 82). -/
def fullPath {D : Type} (env : Env D) (filepath : String) : String :=
  ospath_abspath env.cwd (ospath_join "extracted_data" filepath)

/-- The per-format dispatch of the zip extraction fallback
(`src/ion_processing.py` lines 83-92), parsing from the extracted path.
`none` means no branch matched (txt/unknown): the local `data` stays
unassigned. -/
def loadFromPath {D : Type} (env : Env D) (ft : FileType) (full_path : String)
    (k : Kwargs) : Except PyErr (Option (Loaded D)) :=
  match ft with
  | FileType.csv => (env.read_csv (Src.path full_path) k).map (fun d => some (Loaded.frame d))
  | FileType.xls =>
      (env.read_excel (Src.path full_path) "xlrd" k).map (fun d => some (Loaded.frame d))
  | FileType.xlsx =>
      (env.read_excel (Src.path full_path) "openpyxl" k).map (fun d => some (Loaded.frame d))
  | FileType.vector => do
      let g ← env.gpd_read_file (Src.path full_path) k
      let tgt ← getSawsCrs env
      let g2 := to_crs env g tgt
      pure (some (Loaded.geoFrame g2.1 g2.2))
  | FileType.raster =>
      (env.rasterio_open (Src.path full_path) k).map (fun d => some (Loaded.raster d))
  | FileType.txt => Except.ok none
  | FileType.unknown => Except.ok none

/-- The direct in-archive parse attempt, the body of the `try` block
(`src/ion_processing.py` lines 70-79): open the member, then parse csv/xls/xlsx
from its stream; vector/raster raise `NotImplementedError`; txt/unknown match
no branch and assign nothing (`none`). -/
def directZipParse {D : Type} (env : Env D) (content : Bytes) (ft : FileType)
    (filepath : String) (k : Kwargs) : Except PyErr (Option (Loaded D)) := do
  let stream ← env.zip_open_member content filepath
  match ft with
  | FileType.csv => (env.read_csv (Src.member stream) k).map (fun d => some (Loaded.frame d))
  | FileType.xls =>
      (env.read_excel (Src.member stream) "xlrd" k).map (fun d => some (Loaded.frame d))
  | FileType.xlsx =>
      (env.read_excel (Src.member stream) "openpyxl" k).map (fun d => some (Loaded.frame d))
  | FileType.vector =>
      Except.error (PyErr.notImplementedError "Shapefiles and rasters require extraction.")
  | FileType.raster =>
      Except.error (PyErr.notImplementedError "Shapefiles and rasters require extraction.")
  | FileType.txt => Except.ok none
  | FileType.unknown => Except.ok none

/-- `return data` (`src/ion_processing.py` line 95): reading the local `data`
raises `UnboundLocalError` when no dispatch branch assigned it. -/
def finishReturn {D : Type} : Option (Loaded D) → Except PyErr (Loaded D)
  | some d => Except.ok d
  | none => Except.error (PyErr.unboundLocalError "data")

/-- The `except:` block of the zipped path, the zip extraction fallback
(`src/ion_processing.py` lines 80-93): `extractall('extracted_data')` (its
failure propagates with the directory untouched), the per-format parse from
the resolved extracted path (its failure propagates with the directory left
in place), then `shutil.rmtree('extracted_data')` — which runs whenever the
dispatch itself did not raise, even when no branch assigned `data`. -/
def fallbackRun {D : Type} (env : Env D) (st : FsState) (content : Bytes)
    (ft : FileType) (filepath : String) (k : Kwargs) :
    Except PyErr (Loaded D) × FsState :=
  match env.extractall content with
  | Except.error e => (Except.error e, st)
  | Except.ok _ =>
    let st1 : FsState := ⟨some (st.extracted.getD [] ++ env.zip_names content)⟩
    match loadFromPath env ft (fullPath env filepath) k with
    | Except.error e => (Except.error e, st1)
    | Except.ok res => (finishReturn res, ⟨none⟩)

/-- The zipped branch (`src/ion_processing.py` lines 64-95): open the archive,
require `filepath`, detect the format from it, try the direct in-archive
parse, and on any error fall through to the extraction fallback; finally
`return data`. -/
def loadZipped {D : Type} (env : Env D) (st : FsState) (content : Bytes)
    (filepath : Option String) (k : Kwargs) :
    Except PyErr (Loaded D) × FsState :=
  match env.zip_open_archive content with
  | Except.error e => (Except.error e, st)
  | Except.ok _ =>
    match filepath with
    | none => (Except.error (PyErr.valueError "Must specify 'filepath' within ZIP archive."), st)
    | some fp =>
      match directZipParse env content (detect_file_type fp) fp k with
      | Except.ok res => (finishReturn res, st)
      | Except.error _ => fallbackRun env st content (detect_file_type fp) fp k

/-- `load_data_from_url` (`src/ion_processing.py` lines 12-95): one GET; if the
status is not 200, `raise_for_status` (which raises only for 400-599); then
the non-zipped or zipped dispatch. -/
def loadDataFromUrl {D : Type} (env : Env D) (st : FsState) (url : String)
    (zipped : Bool) (filepath : Option String) (k : Kwargs) :
    Except PyErr (Loaded D) × FsState :=
  match (if env.get_status url ≠ 200 then raise_for_status (env.get_status url) url
         else Except.ok ()) with
  | Except.error e => (Except.error e, st)
  | Except.ok _ =>
    if zipped then loadZipped env st (env.get_content url) filepath k
    else (loadNotZipped env url (env.get_content url) k, st)

/-! ## `lat_long_to_point` (`src/ion_processing.py` lines 98-121) -/

/-- A shapely point geometry `Point(x, y)` over coordinate values `V`. -/
structure Pt (V : Type) where
  x : V
  y : V
  deriving DecidableEq, Repr

/-- A pandas DataFrame, as the coordinate helper sees it: named columns of
values (pandas keeps all columns the same length). -/
structure DataFrame (V : Type) where
  cols : List (String × List V)
  deriving DecidableEq, Repr

/-- `df[c]`: column lookup; `KeyError` when the column is absent. -/
def dfGet {V : Type} (df : DataFrame V) (c : String) : Except PyErr (List V) :=
  match df.cols.lookup c with
  | some vs => Except.ok vs
  | none => Except.error (PyErr.keyError c)

/-- A GeoDataFrame built from a DataFrame: the original table, one point
geometry per record, and the frame's CRS attribute. -/
structure GeoDF (V : Type) where
  table : DataFrame V
  geometry : List (Pt V)
  crs : CRS
  deriving DecidableEq, Repr

/-- The capabilities `lat_long_to_point` invokes: the point-reprojection
content transform of `GeoDataFrame.to_crs`, and the module-global binding of
`saws_crs` (never assigned by the module itself; see `Env.saws_crs`). -/
structure GeoEnv (V : Type) where
  reprojectPt : Pt V → CRS → CRS → Pt V
  saws_crs : Option CRS

/-- `GeoDataFrame.to_crs(tgt)` on a concrete-geometry frame: reproject every
point from the frame's CRS and set the CRS attribute to the target. -/
def geoToCrs {V : Type} (env : GeoEnv V) (g : GeoDF V) (tgt : CRS) : GeoDF V :=
  ⟨g.table, g.geometry.map (fun p => env.reprojectPt p g.crs tgt), tgt⟩

/-- `lat_long_to_point` (`src/ion_processing.py` lines 98-121):
`df_geo = [Point(lon, lat) for lon, lat in zip(df[long_col], df[lat_col])]`
(the longitude column is indexed first; `zip` truncates to the shorter),
then `gpd.GeoDataFrame(df, geometry=df_geo, crs='EPSG:4326')`, then
`df.to_crs(saws_crs)` — the global name `saws_crs` is evaluated only here. -/
def lat_long_to_point {V : Type} (env : GeoEnv V) (df : DataFrame V)
    (lat_col long_col : String) : Except PyErr (GeoDF V) := do
  let longs ← dfGet df long_col
  let lats ← dfGet df lat_col
  let df_geo := List.zipWith (fun lon lat => Pt.mk lon lat) longs lats
  let gdf : GeoDF V := ⟨df, df_geo, "EPSG:4326"⟩
  let tgt ← (match env.saws_crs with
             | some c => Except.ok c
             | none => Except.error (PyErr.nameError "saws_crs"))
  pure (geoToCrs env gdf tgt)

/-! ## Spec-side definition for the refinement claim C1 -/

/-- Modelled from the spec: the §4.3 Loader per-format dispatch ("the
non-zipped per-format parser"), as a function of the source to read from, so
that it can be applied to the extracted file's path; `tgt` is the injected
target CRS of §3/§9.  Only its vector/raster branches are compared with the
code (the spec's `UnsupportedFormatError` message is abstract). -/
def loadSpec43 {D : Type} (env : Env D) (tgt : CRS) (ft : FileType) (src : Src)
    (k : Kwargs) : Except PyErr (Loaded D) :=
  match ft with
  | FileType.csv => (env.read_csv src k).map Loaded.frame
  | FileType.txt => (env.read_csv src k).map Loaded.frame
  | FileType.xls => (env.read_excel src "xlrd" k).map Loaded.frame
  | FileType.xlsx => (env.read_excel src "openpyxl" k).map Loaded.frame
  | FileType.vector => do
      let g ← env.gpd_read_file src k
      pure (Loaded.geoFrame (env.reproject g.1 g.2 tgt) tgt)
  | FileType.raster => (env.rasterio_open src k).map Loaded.raster
  | FileType.unknown =>
      match env.read_csv src k with
      | Except.ok d => Except.ok (Loaded.frame d)
      | Except.error _ => Except.error (PyErr.valueError "unsupported format")

/-! ## Concrete environments for witnesses -/

/-- A concrete environment whose fetch succeeds with status 200 and whose
backends all succeed, with the target CRS injected. -/
def env200 : Env Nat :=
  { get_status := fun _ => 200
    get_content := fun _ => 0
    read_csv := fun _ _ => Except.ok 1
    read_excel := fun _ _ _ => Except.ok 2
    gpd_read_file := fun _ _ => Except.ok (3, "EPSG:4326")
    rasterio_open := fun _ _ => Except.ok 4
    reproject := fun d _ _ => d + 10
    zip_open_archive := fun _ => Except.ok ()
    zip_names := fun _ => ["Major_Ions.csv"]
    zip_open_member := fun _ _ => Except.ok 5
    extractall := fun _ => Except.ok ()
    cwd := "/wd"
    saws_crs := some "EPSG:3857" }

/-- `env200` with a 304 (redirect-class, non-2xx) response status. -/
def env304 : Env Nat := { env200 with get_status := fun _ => 304 }

/-- `env200` with a 404 response status. -/
def env404 : Env Nat := { env200 with get_status := fun _ => 404 }

/-- `env200` with a csv backend that always raises. -/
def envCsvFail : Env Nat :=
  { env200 with read_csv := fun _ _ => Except.error (PyErr.backendError 1) }

/-- `env200` with the global `saws_crs` unbound, as in the module as
written. -/
def envNoCrs : Env Nat := { env200 with saws_crs := none }

/-- A concrete coordinate-helper environment with the target CRS injected. -/
def genvW : GeoEnv Int :=
  { reprojectPt := fun p _ _ => ⟨p.x + 1, p.y + 1⟩
    saws_crs := some "EPSG:3857" }

/-- `genvW` with the global `saws_crs` unbound, as in the module as
written. -/
def genvNoCrs : GeoEnv Int := { genvW with saws_crs := none }

/-- The spec's §8 test-vector table: one record with lat 34.0, long -118.0
(coordinate values modelled as integers; no arithmetic is performed on
them). -/
def dfW : DataFrame Int := ⟨[("lat", [34]), ("long", [-118])]⟩

/-! ## Shared lemmas about the loader -/

@[simp] lemma except_bind_ok {ε α β : Type} (a : α) (f : α → Except ε β) :
    (Except.ok a : Except ε α) >>= f = f a := rfl

@[simp] lemma except_bind_error {ε α β : Type} (e : ε) (f : α → Except ε β) :
    (Except.error e : Except ε α) >>= f = Except.error e := rfl

@[simp] lemma except_map_ok {ε α β : Type} (f : α → β) (a : α) :
    Except.map f (Except.ok a : Except ε α) = Except.ok (f a) := rfl

@[simp] lemma except_map_error {ε α β : Type} (f : α → β) (e : ε) :
    Except.map f (Except.error e : Except ε α) = Except.error e := rfl

/-- With a 200 status, the fetch guard passes and the loader dispatches. -/
lemma loadDataFromUrl_200 {D : Type} (env : Env D) (st : FsState) (url : String)
    (zipped : Bool) (fp : Option String) (k : Kwargs)
    (h : env.get_status url = 200) :
    loadDataFromUrl env st url zipped fp k =
      if zipped then loadZipped env st (env.get_content url) fp k
      else (loadNotZipped env url (env.get_content url) k, st) := by
  unfold loadDataFromUrl
  rw [h]
  simp

/-- For vector and raster inner files the direct in-archive parse attempt
always raises: either the member fails to open, or the unconditional
`NotImplementedError` fires. -/
lemma directZipParse_vr {D : Type} (env : Env D) (content : Bytes) (ft : FileType)
    (fp : String) (k : Kwargs)
    (h : ft = FileType.vector ∨ ft = FileType.raster) :
    ∃ e, directZipParse env content ft fp k = Except.error e := by
  cases hm : env.zip_open_member content fp with
  | error e =>
    exact ⟨e, by simp [directZipParse, hm, Except.bind]⟩
  | ok s =>
    refine ⟨PyErr.notImplementedError "Shapefiles and rasters require extraction.", ?_⟩
    rcases h with h | h <;> subst h <;> simp [directZipParse, hm, Except.bind]

/-- Whenever the direct in-archive parse attempt raises (which for
vector/raster is always), the zipped branch runs the extraction fallback. -/
lemma loadZipped_eq_fallback {D : Type} (env : Env D) (st : FsState) (content : Bytes)
    (fp : String) (k : Kwargs)
    (harch : env.zip_open_archive content = Except.ok ())
    (hdivert : detect_file_type fp = FileType.vector ∨
      detect_file_type fp = FileType.raster ∨
      ∃ e, directZipParse env content (detect_file_type fp) fp k = Except.error e) :
    loadZipped env st content (some fp) k =
      fallbackRun env st content (detect_file_type fp) fp k := by
  have herr : ∃ e, directZipParse env content (detect_file_type fp) fp k = Except.error e := by
    rcases hdivert with h | h | h
    · exact directZipParse_vr env content _ fp k (Or.inl h)
    · exact directZipParse_vr env content _ fp k (Or.inr h)
    · exact h
  obtain ⟨e, he⟩ := herr
  simp [loadZipped, harch, he]

/-- Inverting a successful fallback: extraction succeeded, the path dispatch
assigned the value, and the scratch directory was removed. -/
lemma fallbackRun_ok_inv {D : Type} (env : Env D) (st : FsState) (content : Bytes)
    (ft : FileType) (fp : String) (k : Kwargs) (d : Loaded D) (st' : FsState)
    (h : fallbackRun env st content ft fp k = (Except.ok d, st')) :
    env.extractall content = Except.ok () ∧
      loadFromPath env ft (fullPath env fp) k = Except.ok (some d) ∧
      st' = FsState.mk none := by
  cases hx : env.extractall content with
  | error e => simp [fallbackRun, hx] at h
  | ok u =>
    cases u
    cases hp : loadFromPath env ft (fullPath env fp) k with
    | error e => simp [fallbackRun, hx, hp] at h
    | ok res =>
      cases res with
      | none => simp [fallbackRun, hx, hp, finishReturn] at h
      | some d0 =>
        simp [fallbackRun, hx, hp, finishReturn] at h
        exact ⟨rfl, by rw [h.1], h.2.symm⟩

/-- A successful vector/raster path parse agrees with the spec's §4.3
per-format dispatch applied to the same path. -/
lemma loadFromPath_spec43 {D : Type} (env : Env D) (tgt : CRS) (ft : FileType)
    (p : String) (k : Kwargs) (d : Loaded D)
    (hsaws : env.saws_crs = some tgt)
    (hft : ft = FileType.vector ∨ ft = FileType.raster)
    (h : loadFromPath env ft p k = Except.ok (some d)) :
    loadSpec43 env tgt ft (Src.path p) k = Except.ok d := by
  rcases hft with h1 | h1 <;> subst h1
  · cases hg : env.gpd_read_file (Src.path p) k with
    | error e => simp [loadFromPath, hg, Except.bind] at h
    | ok g =>
      simp [loadFromPath, hg, getSawsCrs, hsaws, to_crs, Except.bind] at h
      simp [loadSpec43, hg, Except.bind, ← h]
  · cases hr : env.rasterio_open (Src.path p) k with
    | error e => simp [loadFromPath, hr] at h
    | ok r =>
      simp [loadFromPath, hr] at h
      simp [loadSpec43, hr, ← h]

/-! ## Claim theorems -/

/-- C2: for every non-zipped load whose URL extension maps to vector, with the
process-wide target CRS injected as the global `saws_crs` (spec §3/§9) and the
fetch and vector parse succeeding, `load_data_from_url` returns a Geospatial
Frame whose CRS attribute equals the target CRS, regardless of the CRS the
source file was originally in (`origCrs` is arbitrary). -/
theorem C2_nonzipped_vector_target_crs {D : Type} (env : Env D) (st : FsState)
    (url : String) (k : Kwargs) (d : D) (origCrs tgt : CRS)
    (hstatus : env.get_status url = 200)
    (hft : detect_file_type url = FileType.vector)
    (hsaws : env.saws_crs = some tgt)
    (hread : env.gpd_read_file (Src.buffer (env.get_content url)) k =
      Except.ok (d, origCrs)) :
    loadDataFromUrl env st url false none k =
      (Except.ok (Loaded.geoFrame (env.reproject d origCrs tgt) tgt), st) := by
  rw [loadDataFromUrl_200 env st url false none k hstatus]
  simp [loadNotZipped, hft, hread, getSawsCrs, hsaws, to_crs]

/-- C2 witness: a concrete non-zipped `.geojson` load returns a frame in the
injected target CRS (`EPSG:3857`), though the file declared `EPSG:4326`. -/
theorem C2_witness :
    loadDataFromUrl env200 ⟨none⟩ "http://x/a.geojson" false none 0 =
      (Except.ok (Loaded.geoFrame 13 "EPSG:3857"), ⟨none⟩) :=
  C2_nonzipped_vector_target_crs env200 ⟨none⟩ "http://x/a.geojson" 0 3
    "EPSG:4326" "EPSG:3857" rfl rfl rfl rfl

/-- C5 counterexample: a 304 response status is not a success (2xx) status,
yet `load_data_from_url` raises no TransportError — `raise_for_status` is a
no-op below 400 — parsing proceeds and a frame is returned. -/
theorem C5_counterexample :
    loadDataFromUrl env304 ⟨none⟩ "http://x/a.csv" false none 0 =
      (Except.ok (Loaded.frame 1), ⟨none⟩) := rfl

/-- C5 (amended): `load_data_from_url` fails with a TransportError carrying
the status code and the URL, before any parsing, exactly for response
statuses 400-599 (the range `requests`' `raise_for_status` rejects); non-200
statuses below 400 (informational, redirect, or non-200 2xx) are not rejected
and flow on to parsing.  In particular a 404 fetch fails with TransportError
carrying 404 (see the witness). -/
theorem C5_transport_error (D : Type) (env : Env D) (st : FsState) (url : String)
    (zipped : Bool) (fp : Option String) (k : Kwargs)
    (h : 400 ≤ env.get_status url ∧ env.get_status url < 600) :
    loadDataFromUrl env st url zipped fp k =
      (Except.error (PyErr.httpError (env.get_status url) url), st) := by
  have hne : env.get_status url ≠ 200 := by omega
  simp [loadDataFromUrl, hne, raise_for_status, h]

/-- C5 witness: fetching a URL that returns HTTP 404 fails with a
TransportError carrying status 404 and the URL. -/
theorem C5_witness :
    loadDataFromUrl env404 ⟨none⟩ "http://x/a.csv" false none 0 =
      (Except.error (PyErr.httpError 404 "http://x/a.csv"), ⟨none⟩) :=
  C5_transport_error Nat env404 ⟨none⟩ "http://x/a.csv" false none 0 (by decide)

/-- C6: for every zipped load (successful fetch, valid archive) with the
inner archive path absent, `load_data_from_url` fails with the
MissingInnerPathError (`ValueError("Must specify 'filepath' within ZIP
archive.")`) and returns no structure. -/
theorem C6_missing_inner_path {D : Type} (env : Env D) (st : FsState)
    (url : String) (k : Kwargs)
    (hstatus : env.get_status url = 200)
    (harch : env.zip_open_archive (env.get_content url) = Except.ok ()) :
    loadDataFromUrl env st url true none k =
      (Except.error (PyErr.valueError "Must specify 'filepath' within ZIP archive."), st) := by
  rw [loadDataFromUrl_200 env st url true none k hstatus]
  simp [loadZipped, harch]

/-- C6 witness at a concrete zipped load with `filepath` omitted. -/
theorem C6_witness :
    loadDataFromUrl env200 ⟨none⟩ "http://x/a.zip" true none 0 =
      (Except.error (PyErr.valueError "Must specify 'filepath' within ZIP archive."), ⟨none⟩) :=
  C6_missing_inner_path env200 ⟨none⟩ "http://x/a.zip" 0 rfl rfl

/-- A decidable substring test: `needle` occurs contiguously inside `hay`. -/
def isSubstr (needle hay : List Char) : Bool :=
  (List.range (hay.length + 1)).any (fun i => (hay.drop i).take needle.length == needle)

/-- C7 counterexample: for an unknown-format non-zipped load whose csv
fallback parse fails, the raised error is the same fixed `ValueError` whatever
the URL was, and the URL is not contained in its message — so the error does
not carry the original URL as the claim states. -/
theorem C7_counterexample :
    loadDataFromUrl envCsvFail ⟨none⟩ "http://host/data.zzz" false none 0 =
      (Except.error (PyErr.valueError
        "Could not download data from this URL. Please check URL and try again."), ⟨none⟩) ∧
    loadDataFromUrl envCsvFail ⟨none⟩ "http://elsewhere/other.qqq" false none 0 =
      (Except.error (PyErr.valueError
        "Could not download data from this URL. Please check URL and try again."), ⟨none⟩) ∧
    isSubstr "http://host/data.zzz".data
      "Could not download data from this URL. Please check URL and try again.".data = false :=
  ⟨rfl, rfl, rfl⟩

/-- C7 (amended): for every non-zipped load of unknown detected format, the
loader first attempts a csv parse of the payload; if and only if that
fallback parse fails it raises the UnsupportedFormatError, which carries a
fixed user-facing message asking the caller to check the URL (the message
does not include the original URL). -/
theorem C7_unknown_fallback {D : Type} (env : Env D) (st : FsState)
    (url : String) (k : Kwargs)
    (hstatus : env.get_status url = 200)
    (hft : detect_file_type url = FileType.unknown) :
    (∀ d, env.read_csv (Src.buffer (env.get_content url)) k = Except.ok d →
      loadDataFromUrl env st url false none k = (Except.ok (Loaded.frame d), st)) ∧
    (∀ e, env.read_csv (Src.buffer (env.get_content url)) k = Except.error e →
      loadDataFromUrl env st url false none k =
        (Except.error (PyErr.valueError
          "Could not download data from this URL. Please check URL and try again."), st)) := by
  constructor
  · intro d hd
    rw [loadDataFromUrl_200 env st url false none k hstatus]
    simp [loadNotZipped, hft, hd]
  · intro e he
    rw [loadDataFromUrl_200 env st url false none k hstatus]
    simp [loadNotZipped, hft, he]

/-- C7 witness: the failing-fallback branch at a concrete unknown-format
load. -/
theorem C7_witness :
    loadDataFromUrl envCsvFail ⟨none⟩ "http://x/a.zzz" false none 0 =
      (Except.error (PyErr.valueError
        "Could not download data from this URL. Please check URL and try again."), ⟨none⟩) :=
  (C7_unknown_fallback envCsvFail ⟨none⟩ "http://x/a.zzz" 0 rfl rfl).2
    (PyErr.backendError 1) rfl

/-- Status-200 zipped load: the call is the zipped dispatch. -/
lemma loadDataFromUrl_200_zipped {D : Type} (env : Env D) (st : FsState)
    (url : String) (fp : Option String) (k : Kwargs)
    (h : env.get_status url = 200) :
    loadDataFromUrl env st url true fp k =
      loadZipped env st (env.get_content url) fp k := by
  rw [loadDataFromUrl_200 env st url true fp k h]
  simp

/-- C1: for every zipped load (fetch 200, valid archive) whose inner path's
extension maps to vector or raster — and likewise whenever the direct
in-archive parse attempt raises any error — the zipped branch never parses
the open member stream but takes the zip extraction fallback: the whole call
equals the fallback computation, which reads only from the resolved extracted
path.  Moreover, when such a vector/raster load succeeds (with the target CRS
injected, spec §3/§9), the returned structure equals the one produced by the
spec's §4.3 non-zipped per-format parser applied directly to the extracted
file, and the scratch directory does not exist after the call. -/
theorem C1_zipped_extraction_refinement {D : Type} (env : Env D) (st : FsState)
    (url : String) (fp : String) (k : Kwargs)
    (hstatus : env.get_status url = 200)
    (harch : env.zip_open_archive (env.get_content url) = Except.ok ())
    (hdivert : detect_file_type fp = FileType.vector ∨
      detect_file_type fp = FileType.raster ∨
      ∃ e, directZipParse env (env.get_content url) (detect_file_type fp) fp k =
        Except.error e) :
    loadDataFromUrl env st url true (some fp) k =
      fallbackRun env st (env.get_content url) (detect_file_type fp) fp k ∧
    (∀ (tgt : CRS) (d : Loaded D) (st' : FsState),
      (detect_file_type fp = FileType.vector ∨ detect_file_type fp = FileType.raster) →
      env.saws_crs = some tgt →
      loadDataFromUrl env st url true (some fp) k = (Except.ok d, st') →
      loadSpec43 env tgt (detect_file_type fp) (Src.path (fullPath env fp)) k =
          Except.ok d ∧
        st' = FsState.mk none) := by
  have hmain : loadDataFromUrl env st url true (some fp) k =
      fallbackRun env st (env.get_content url) (detect_file_type fp) fp k := by
    rw [loadDataFromUrl_200_zipped env st url (some fp) k hstatus]
    exact loadZipped_eq_fallback env st (env.get_content url) fp k harch hdivert
  refine ⟨hmain, ?_⟩
  intro tgt d st' hvr hsaws hok
  rw [hmain] at hok
  obtain ⟨hx, hp, hst⟩ :=
    fallbackRun_ok_inv env st (env.get_content url) (detect_file_type fp) fp k d st' hok
  exact ⟨loadFromPath_spec43 env tgt (detect_file_type fp) (fullPath env fp) k d hsaws hvr hp, hst⟩

/-- C1 witness: a concrete zipped shapefile load equals its extraction
fallback, and its result equals the spec's direct per-format load of the
extracted path. -/
theorem C1_witness :
    loadDataFromUrl env200 ⟨none⟩ "http://x/a.zip" true (some "layer.shp") 0 =
      fallbackRun env200 ⟨none⟩ 0 FileType.vector "layer.shp" 0 ∧
    loadSpec43 env200 "EPSG:3857" FileType.vector
      (Src.path (fullPath env200 "layer.shp")) 0 =
      Except.ok (Loaded.geoFrame 13 "EPSG:3857") := by
  have h := C1_zipped_extraction_refinement env200 ⟨none⟩ "http://x/a.zip" "layer.shp" 0
    rfl rfl (Or.inl rfl)
  refine ⟨h.1, ?_⟩
  exact (h.2 "EPSG:3857" (Loaded.geoFrame 13 "EPSG:3857") ⟨none⟩ (Or.inl rfl) rfl (by rfl)).1

/-- C4: the scratch-directory contract of the zip extraction fallback:
(i) when extraction and the path dispatch succeed with an assigned structure,
the fallback removes `extracted_data` and its contents and the state after
the call has no scratch directory; (ii) when extraction fails, the fallback
propagates the error with the state untouched — nothing is removed; (iii)
when the post-extraction parse fails, the error propagates and the directory
is left in place with the extracted members; (iv) lifted to the whole loader:
a zipped load that diverts to the fallback and returns a structure leaves no
scratch directory behind. -/
theorem C4_scratch_cleanup {D : Type} (env : Env D) (st : FsState)
    (content : Bytes) (ft : FileType) (fp : String) (k : Kwargs) :
    (∀ d, env.extractall content = Except.ok () →
      loadFromPath env ft (fullPath env fp) k = Except.ok (some d) →
      fallbackRun env st content ft fp k = (Except.ok d, FsState.mk none)) ∧
    (∀ e, env.extractall content = Except.error e →
      fallbackRun env st content ft fp k = (Except.error e, st)) ∧
    (∀ e, env.extractall content = Except.ok () →
      loadFromPath env ft (fullPath env fp) k = Except.error e →
      fallbackRun env st content ft fp k =
        (Except.error e,
          FsState.mk (some (st.extracted.getD [] ++ env.zip_names content)))) ∧
    (∀ (url : String) (d : Loaded D) (st' : FsState),
      env.get_status url = 200 →
      env.zip_open_archive (env.get_content url) = Except.ok () →
      (detect_file_type fp = FileType.vector ∨ detect_file_type fp = FileType.raster ∨
        ∃ e, directZipParse env (env.get_content url) (detect_file_type fp) fp k =
          Except.error e) →
      loadDataFromUrl env st url true (some fp) k = (Except.ok d, st') →
      st'.extracted = none) := by
  refine ⟨?_, ?_, ?_, ?_⟩
  · intro d hx hp
    simp [fallbackRun, hx, hp, finishReturn]
  · intro e hx
    simp [fallbackRun, hx]
  · intro e hx hp
    simp [fallbackRun, hx, hp]
  · intro url d st' hstatus harch hdivert hok
    rw [loadDataFromUrl_200_zipped env st url (some fp) k hstatus,
      loadZipped_eq_fallback env st (env.get_content url) fp k harch hdivert] at hok
    obtain ⟨hx, hp, hst⟩ := fallbackRun_ok_inv env st (env.get_content url)
      (detect_file_type fp) fp k d st' hok
    rw [hst]

/-- C4 witness: a concrete successful fallback run removes the scratch
directory. -/
theorem C4_witness :
    fallbackRun env200 ⟨none⟩ 0 FileType.csv "Major_Ions.csv" 0 =
      (Except.ok (Loaded.frame 1), FsState.mk none) :=
  (C4_scratch_cleanup env200 ⟨none⟩ 0 FileType.csv "Major_Ions.csv" 0).1
    (Loaded.frame 1) rfl rfl

/-- C8: with the target CRS injected (spec §3/§9) and both named columns
present, `lat_long_to_point` builds one point geometry per record with
x = the longitude value and y = the latitude value (in that axis order),
assembles the frame under the WGS84 geographic reference system
(`EPSG:4326`), and then reprojects the whole frame into the target CRS
before returning it: the result is the original table, the (lon, lat)
points reprojected from `EPSG:4326` to the target, and a CRS attribute
equal to the target. -/
theorem C8_lat_long_to_point {V : Type} (env : GeoEnv V) (df : DataFrame V)
    (lat_col long_col : String) (lats longs : List V) (tgt : CRS)
    (hlong : dfGet df long_col = Except.ok longs)
    (hlat : dfGet df lat_col = Except.ok lats)
    (hsaws : env.saws_crs = some tgt) :
    lat_long_to_point env df lat_col long_col =
      Except.ok ⟨df,
        (List.zipWith (fun lon lat => Pt.mk lon lat) longs lats).map
          (fun p => env.reprojectPt p "EPSG:4326" tgt), tgt⟩ := by
  simp [lat_long_to_point, hlong, hlat, hsaws, geoToCrs]

/-- C8 witness, the spec's §8 test vector: one record with lat 34, long -118
yields the single point (x = -118, y = 34) reprojected into the target CRS. -/
theorem C8_witness :
    lat_long_to_point genvW dfW "lat" "long" =
      Except.ok ⟨dfW, [Pt.mk (-117) 35], "EPSG:3857"⟩ :=
  C8_lat_long_to_point genvW dfW "lat" "long" [34] [-118] "EPSG:3857" rfl rfl rfl

/-- C9: the module `src/ion_processing.py` never defines or assigns the name
`saws_crs` (lines 55, 90, 119 only read it), which the model renders as
`saws_crs = none` in the global environments; every code path that reaches a
reprojection then fails with `NameError` instead of returning a frame in the
target CRS: (i) a non-zipped vector load whose parse succeeded; (ii) the zip
extraction fallback for a vector inner file whose parse succeeded (the error
propagates with the scratch directory left in place); (iii) every
`lat_long_to_point` call with both columns present. -/
theorem C9_saws_crs_undefined {D V : Type} (env : Env D) (genv : GeoEnv V)
    (hE : env.saws_crs = none) (hG : genv.saws_crs = none) :
    (∀ (st : FsState) (url : String) (k : Kwargs) (g : D × CRS),
      env.get_status url = 200 →
      detect_file_type url = FileType.vector →
      env.gpd_read_file (Src.buffer (env.get_content url)) k = Except.ok g →
      loadDataFromUrl env st url false none k =
        (Except.error (PyErr.nameError "saws_crs"), st)) ∧
    (∀ (st : FsState) (content : Bytes) (fp : String) (k : Kwargs) (g : D × CRS),
      detect_file_type fp = FileType.vector →
      env.extractall content = Except.ok () →
      env.gpd_read_file (Src.path (fullPath env fp)) k = Except.ok g →
      fallbackRun env st content (detect_file_type fp) fp k =
        (Except.error (PyErr.nameError "saws_crs"),
          FsState.mk (some (st.extracted.getD [] ++ env.zip_names content)))) ∧
    (∀ (df : DataFrame V) (lat_col long_col : String) (lats longs : List V),
      dfGet df long_col = Except.ok longs →
      dfGet df lat_col = Except.ok lats →
      lat_long_to_point genv df lat_col long_col =
        Except.error (PyErr.nameError "saws_crs")) := by
  refine ⟨?_, ?_, ?_⟩
  · intro st url k g hstatus hft hread
    rw [loadDataFromUrl_200 env st url false none k hstatus]
    simp [loadNotZipped, hft, hread, getSawsCrs, hE]
  · intro st content fp k g hft hx hread
    rw [hft]
    simp [fallbackRun, hx, loadFromPath, hread, getSawsCrs, hE]
  · intro df lat_col long_col lats longs hlong hlat
    simp [lat_long_to_point, hlong, hlat, hG]

/-- C9 witness: with `saws_crs` unbound, a concrete non-zipped vector load
and a concrete coordinate conversion both fail with the `NameError`. -/
theorem C9_witness :
    loadDataFromUrl envNoCrs ⟨none⟩ "http://x/a.geojson" false none 0 =
      (Except.error (PyErr.nameError "saws_crs"), ⟨none⟩) ∧
    lat_long_to_point genvNoCrs dfW "lat" "long" =
      Except.error (PyErr.nameError "saws_crs") := by
  have h := C9_saws_crs_undefined envNoCrs genvNoCrs rfl rfl
  exact ⟨h.1 ⟨none⟩ "http://x/a.geojson" 0 (3, "EPSG:4326") rfl rfl rfl,
    h.2.2 dfW "lat" "long" [34] [-118] rfl rfl⟩

/-- C10: for every zipped load (fetch 200, valid archive) whose inner path's
extension maps to txt or unknown, no dispatch branch assigns `data`:
(i) when the archive member opens, the direct-parse block raises nothing and
the fallback is skipped, and the call fails at `return data` with
`UnboundLocalError` leaving the filesystem state untouched; (ii) when the
member fails to open and extraction succeeds, the fallback also matches no
branch — it still removes the scratch directory — and the call again fails
with `UnboundLocalError`.  In neither case is a documented error of the
taxonomy raised. -/
theorem C10_txt_unknown_unbound {D : Type} (env : Env D) (st : FsState)
    (url fp : String) (k : Kwargs)
    (hstatus : env.get_status url = 200)
    (harch : env.zip_open_archive (env.get_content url) = Except.ok ())
    (hft : detect_file_type fp = FileType.txt ∨
      detect_file_type fp = FileType.unknown) :
    (∀ s, env.zip_open_member (env.get_content url) fp = Except.ok s →
      loadDataFromUrl env st url true (some fp) k =
        (Except.error (PyErr.unboundLocalError "data"), st)) ∧
    (∀ e, env.zip_open_member (env.get_content url) fp = Except.error e →
      env.extractall (env.get_content url) = Except.ok () →
      loadDataFromUrl env st url true (some fp) k =
        (Except.error (PyErr.unboundLocalError "data"), FsState.mk none)) := by
  constructor
  · intro s hm
    rw [loadDataFromUrl_200_zipped env st url (some fp) k hstatus]
    rcases hft with h | h <;>
      simp [loadZipped, harch, directZipParse, hm, h, finishReturn]
  · intro e hm hx
    rw [loadDataFromUrl_200_zipped env st url (some fp) k hstatus]
    rcases hft with h | h <;>
      simp [loadZipped, harch, directZipParse, hm, h, fallbackRun, hx,
        loadFromPath, finishReturn]

/-- C10 witness: a concrete zipped load of a txt member that opens fine fails
with the unbound-local error. -/
theorem C10_witness :
    loadDataFromUrl env200 ⟨none⟩ "http://x/a.zip" true (some "notes.txt") 0 =
      (Except.error (PyErr.unboundLocalError "data"), ⟨none⟩) :=
  (C10_txt_unknown_unbound env200 ⟨none⟩ "http://x/a.zip" "notes.txt" 0 rfl rfl
    (Or.inl rfl)).1 5 rfl
